import Mathlib

/-!
Verification of the tournament-bot enrichment and diff engine.

Shallow embedding of the Python sources:
  - detail_worker.py          (DetailWorker.enrich_tournaments)
  - fetch_registration_details.py (DetailResult shape, neutral error result)
  - script.py                 (save_tournaments_async, save_tournaments_to_s3)
  - rate_limit_helper.py      (RateLimiter)

Modelling conventions:
  - Python dicts with a fixed key set become Lean structures.  Every return
    path of fetch_registration_details produces all four keys, so DetailResult
    is a total record; parse_tournament_page produces all listing keys, so
    Tournament is a total record (the two notification flags are read through
    dict.get with default False / set before first read in the pipeline).
  - datetime values are modelled as Int timestamps in seconds; a parsed
    calendar date sits at midnight, i.e. dayNumber * 86400.  timedelta.days
    is floor division by 86400 (Python floors toward negative infinity).
  - Python float arithmetic ((x / y) * 100 compared with thresholds) is
    modelled with exact rational arithmetic over ℚ.
  - The detail fetcher is a function from a URL to Except (an exception or a
    DetailResult); the fetch is deterministic within a proof context.
  - Wall-clock readings of the rate limiter are explicit ℚ arguments, with a
    sleep lower bound supplied as a hypothesis.
  - Batching in enrich_tournaments (batch size 5, 2s inter-batch sleep) only
    inserts delays; items are processed in input order with independent
    per-item state, so the embedding folds over the list directly.
-/

/-- digit list to the natural number it denotes (used by the date format
parse, after the digits-only guard). -/
def natOfDigits (cs : List Char) : Nat :=
  cs.foldl (fun a c => a * 10 + (c.toNat - 48)) 0

/-- split a character list on the slash character, mirroring how the
strptime format string m/d/Y cuts the input at its literal slashes. -/
def splitOnSlash (cs : List Char) : List (List Char) :=
  match cs with
  | [] => [[]]
  | c :: rest =>
    let r := splitOnSlash rest
    if c = '/' then [] :: r
    else
      match r with
      | [] => [[c]]
      | h :: tl => (c :: h) :: tl

/-- Gregorian leap-year rule, as used by Python's datetime validation. -/
def isLeapYear (y : Nat) : Bool :=
  (y % 4 = 0 && y % 100 ≠ 0) || (y % 400 = 0)

/-- days in a month, for the day-of-month validation datetime performs. -/
def daysInMonth (y m : Nat) : Nat :=
  if m = 2 then (if isLeapYear y then 29 else 28)
  else if m = 4 ∨ m = 6 ∨ m = 9 ∨ m = 11 then 30
  else 31

/-- day number of a civil date counted from 1970-01-01 (standard
days-from-civil computation with floor division). -/
def daysFromCivil (y m d : Int) : Int :=
  let y' := if m ≤ 2 then y - 1 else y
  let era := Int.fdiv y' 400
  let yoe := y' - era * 400
  let mp := (m + 9) % 12
  let doy := Int.fdiv (153 * mp + 2) 5 + d - 1
  let doe := yoe * 365 + Int.fdiv yoe 4 - Int.fdiv yoe 100 + doy
  era * 146097 + doe - 719468

/-- datetime.strptime(s, m/d/Y format) as used at detail_worker.py:73,
returning the midnight timestamp in seconds of the parsed calendar date, or
none when strptime raises ValueError.  The strptime regex accepts one or two
digits for month (value 1..12) and day (value 1..31), exactly four digits for
the year, requires the whole string to be consumed, and the datetime
constructor then validates the day against the month length and the year
against MINYEAR = 1. -/
def parseMDY (s : String) : Option Int :=
  match splitOnSlash s.toList with
  | [ms, ds, ys] =>
    if ms.all Char.isDigit && ds.all Char.isDigit && ys.all Char.isDigit then
      if 1 ≤ ms.length ∧ ms.length ≤ 2 ∧ 1 ≤ ds.length ∧ ds.length ≤ 2 ∧ ys.length = 4 then
        let m := natOfDigits ms
        let d := natOfDigits ds
        let y := natOfDigits ys
        if 1 ≤ m ∧ m ≤ 12 ∧ 1 ≤ d ∧ d ≤ daysInMonth y m ∧ 1 ≤ y then
          some (daysFromCivil (y : Int) (m : Int) (d : Int) * 86400)
        else none
      else none
    else none
  | _ => none

/-- the days field of the difference of two datetimes (seconds), flooring
toward negative infinity as Python timedelta does. -/
def timedeltaDays (a b : Int) : Int :=
  Int.fdiv (a - b) 86400

/-- result dictionary of fetch_registration_details: every return path of
that function (success, non-200 status, parse fallback, exception handler)
carries exactly these four keys. -/
structure DetailResult where
  closing_text : String
  closing_date : Option Int
  registrants : Nat
  capacity : Nat
deriving DecidableEq, Repr

/-- the neutral result fetch_registration_details returns on a non-200
status or on any exception it catches internally (lines 45-50, 119-124). -/
def neutralDetailResult : DetailResult :=
  { closing_text := "N/A", closing_date := none, registrants := 0, capacity := 0 }

/-- tournament dictionary built by parse_tournament_page in script.py,
together with the detail fields and notification flags added later in the
pipeline. -/
structure Tournament where
  name : String
  url : String
  registration_open : Bool
  location : String
  date : String
  registrants : Nat
  capacity : Nat
  tier : String
  closing_text : String
  closing_date : Option Int
  registration_closing_sent : Bool
  registration_filling_sent : Bool
deriving DecidableEq, Repr

/-- detail_worker.py:13. -/
def DEFAULT_CAPACITY : Nat := 72

/-- detail_worker.py:15. -/
def FILLING_THRESHOLD : ℚ := 75

/-- the expression (registrants / capacity) * 100 of detail_worker.py
lines 82 and 128, in exact rational arithmetic. -/
def fillPercentage (registrants capacity : Nat) : ℚ :=
  ((registrants : ℚ) / (capacity : ℚ)) * 100

/-- detail_worker.py lines 70-77: eligibility of a tournament for the
closing-soon detail check.  A date equal to the sentinel, or one strptime
rejects (ValueError caught and logged at line 77), leaves the initial False
in place. -/
def shouldCheckClosing (now : Int) (t : Tournament) : Bool :=
  if t.date != "N/A" then
    match parseMDY t.date with
    | some dateTs =>
      decide (timedeltaDays dateTs now ≤ 14) && !t.registration_closing_sent
    | none => false
  else false

/-- detail_worker.py lines 79-85: eligibility for the filling-up detail
check, from the listing registrants over the listing capacity (or
DEFAULT_CAPACITY when that is zero, via Python or-falsiness). -/
def shouldCheckFilling (t : Tournament) : Bool :=
  let tournamentCapacity := if t.capacity = 0 then DEFAULT_CAPACITY else t.capacity
  let fillPct : ℚ :=
    if 0 < tournamentCapacity then fillPercentage t.registrants tournamentCapacity else 0
  decide (fillPct ≥ 50) && !t.registration_filling_sent

/-- detail_worker.py line 88: fetch details only when the URL is known,
registration is open (dict.get default True), and one of the two checks is
wanted. -/
def isEligible (now : Int) (t : Tournament) : Bool :=
  t.url != "N/A" && t.registration_open &&
    (shouldCheckClosing now t || shouldCheckFilling t)

/-- detail_worker.py line 112: a closing date is present in the fetched
details (a datetime is always truthy, None is falsy) and, line 113-114, the
remaining days are strictly below seven. -/
def closeFires (now : Int) (d : DetailResult) : Bool :=
  match d.closing_date with
  | some cd => decide (timedeltaDays cd now < 7)
  | none => false

/-- detail_worker.py lines 106-135, the per-item body after a successful
await of the detail fetch: merge the details into the tournament dict
(line 109), then the closing-soon branch (111-116), then the filling-up
branch (118-135).  Returns the final state of the mutated dict plus the two
membership bits for the closing_soon and filling_up lists; appended dicts
alias the mutated tournament, so a list member carries the final state. -/
def processDetails (now : Int) (t : Tournament) (d : DetailResult)
    (checkClosing checkFilling : Bool) : Tournament × Bool × Bool :=
  let t1 := { t with closing_text := d.closing_text, closing_date := d.closing_date,
                     registrants := d.registrants, capacity := d.capacity }
  let closingFires := checkClosing && closeFires now d
  let t2 := if closingFires then { t1 with registration_closing_sent := true } else t1
  let capacity := if d.capacity = 0 then DEFAULT_CAPACITY else d.capacity
  let registrants := max d.registrants t2.registrants
  let fillingFires := checkFilling && decide (0 < capacity) &&
    decide (fillPercentage registrants capacity ≥ FILLING_THRESHOLD)
  let t3 :=
    if fillingFires then
      { t2 with registrants := registrants, capacity := capacity,
                registration_filling_sent := true }
    else t2
  (t3, closingFires, fillingFires)

/-- detail_worker.py lines 106-138: awaiting the fetch task and the
try/except around the whole per-item body.  An exception from the fetch is
caught and logged with the item's name (line 138); none of the merging or
branching runs for that item. -/
def processEligible (fetch : String → Except String DetailResult) (now : Int)
    (t : Tournament) (checkClosing checkFilling : Bool) : Tournament × Bool × Bool :=
  match fetch t.url with
  | Except.ok d => processDetails now t d checkClosing checkFilling
  | Except.error _ => (t, false, false)

/-- one tournament's passage through enrich_tournaments: the pre-filter of
lines 66-89 decides eligibility and the two check bits, and eligible items
run the fetch-and-merge body.  Ineligible items pass through unchanged and
join no list. -/
def enrichOne (fetch : String → Except String DetailResult) (now : Int)
    (t : Tournament) : Tournament × Bool × Bool :=
  if isEligible now t then
    processEligible fetch now t (shouldCheckClosing now t) (shouldCheckFilling t)
  else (t, false, false)

/-- DetailWorker.enrich_tournaments, detail_worker.py lines 50-141, as a
pure transformation: the in-place mutation of the tournaments list becomes
the first component, and the closing_soon and filling_up lists collect the
final states of the items whose branch fired, in input order (batching only
inserts delays and keeps submission order). -/
def enrichTournaments (fetch : String → Except String DetailResult) (now : Int)
    (tournaments : List Tournament) :
    List Tournament × List Tournament × List Tournament :=
  let rs := tournaments.map (enrichOne fetch now)
  (rs.map (fun r => r.1),
   (rs.filter (fun r => r.2.1)).map (fun r => r.1),
   (rs.filter (fun r => r.2.2)).map (fun r => r.1))

/-- identity comparison used throughout save_tournaments_async: equality of
name, date and location. -/
def sameIdentity (t s : Tournament) : Bool :=
  t.name == s.name && t.date == s.date && t.location == s.location

/-- the composite identity key. -/
def idKey (t : Tournament) : String × String × String :=
  (t.name, t.date, t.location)

/-- next(...) over the saved list in save_tournaments_async: first saved
item matching the current item's identity. -/
def findMatching (saved : List Tournament) (t : Tournament) : Option Tournament :=
  saved.find? (fun s => sameIdentity t s)

/-- assignment of the two notification flags on a tournament dict. -/
def setFlags (t : Tournament) (closing filling : Bool) : Tournament :=
  { t with registration_closing_sent := closing, registration_filling_sent := filling }

/-- script.py lines 747-760: carry the notification flags forward from the
matching saved item (dict.get default False), or initialize both to False
when no saved item matches. -/
def initFlags (saved : List Tournament) (t : Tournament) : Tournament :=
  match findMatching saved t with
  | some m => setFlags t m.registration_closing_sent m.registration_filling_sent
  | none => setFlags t false false

/-- script.py lines 737-744: a tournament is new when no saved item matches
its identity. -/
def isNew (saved : List Tournament) (t : Tournament) : Bool :=
  !(saved.any (fun s => sameIdentity t s))

/-- script.py lines 768-777: registration newly opened when a matching
saved item exists, its registration_open was falsy (dict.get default
False), and the current item's registration_open is truthy (dict.get
default True). -/
def regOpenedCheck (saved : List Tournament) (c : Tournament) : Bool :=
  match findMatching saved c with
  | some m => !m.registration_open && c.registration_open
  | none => false

/-- save_tournaments_async, script.py lines 730-788, given the prior saved
snapshot: carry flags forward, enrich, and compute the four notification
lists.  new_tournaments and registration_opened are membership decisions
over identity and registration_open, both preserved by enrichment, and the
Python lists alias the mutated dicts, so filtering the final list is the
faithful reading.  The save_tournaments_to_s3 call at line 786 has its
result discarded and does not influence the returned value (modelled in
runCycle). -/
def saveTournamentsAsync (fetch : String → Except String DetailResult) (now : Int)
    (saved candidates : List Tournament) :
    List Tournament × List Tournament × List Tournament × List Tournament :=
  let ts1 := candidates.map (initFlags saved)
  let enriched := enrichTournaments fetch now ts1
  let ts2 := enriched.1
  (ts2.filter (isNew saved), ts2.filter (regOpenedCheck saved),
   enriched.2.1, enriched.2.2)

/-- the full merged and enriched list save_tournaments_async passes to
save_tournaments_to_s3 at line 786. -/
def cycleSavedList (fetch : String → Except String DetailResult) (now : Int)
    (saved candidates : List Tournament) : List Tournament :=
  (enrichTournaments fetch now (candidates.map (initFlags saved))).1

/-- save_tournaments_to_s3, script.py lines 706-728: an empty list is
logged and skipped with False before any put; otherwise the put either
replaces the stored object and returns True, or raises ClientError
(modelled by the s3ok flag), which is caught, logged, and returns False
with the store unchanged. -/
def saveTournamentsToS3 (s3ok : Bool) (tournaments : List Tournament)
    (stored : Option (List Tournament)) : Bool × Option (List Tournament) :=
  if tournaments.isEmpty then (false, stored)
  else if s3ok then (true, some tournaments)
  else (false, stored)

/-- one cycle as the caller of save_tournaments_async sees it: the four
notification lists are computed, the enriched list is saved (line 786, the
Boolean result of save_tournaments_to_s3 is discarded), and the four lists
are returned (line 788).  The second component is the store content after
the save. -/
def runCycle (fetch : String → Except String DetailResult) (now : Int) (s3ok : Bool)
    (stored : Option (List Tournament)) (saved candidates : List Tournament) :
    (List Tournament × List Tournament × List Tournament × List Tournament) ×
      Option (List Tournament) :=
  let lists := saveTournamentsAsync fetch now saved candidates
  let afterSave := saveTournamentsToS3 s3ok (cycleSavedList fetch now saved candidates) stored
  (lists, afterSave.2)

/-- rate_limit_helper.py lines 27-33. -/
structure RateLimiter where
  requests_per_minute : ℚ
  min_interval : ℚ
  last_request_time : ℚ
deriving DecidableEq, Repr

/-- RateLimiter.__init__ with its default of ten requests per minute:
min_interval is 60 / requests_per_minute and the last request time starts
at zero. -/
def mkRateLimiter (rpm : ℚ) : RateLimiter :=
  { requests_per_minute := rpm, min_interval := 60 / rpm, last_request_time := 0 }

/-- rate_limit_helper.py lines 37-43: the sleep duration wait_if_needed
performs given the clock reading t at entry: min_interval - elapsed when
elapsed is below min_interval, otherwise no sleep. -/
def waitTime (rl : RateLimiter) (t : ℚ) : ℚ :=
  let elapsed := t - rl.last_request_time
  if elapsed < rl.min_interval then rl.min_interval - elapsed else 0

/-- rate_limit_helper.py line 45: after the optional sleep the limiter
records the fresh clock reading t' as last_request_time.  Theorems relate
t' to the entry reading t through the sleep lower bound
t' ≥ t + waitTime rl t (time.sleep never returns early and the clock is
monotone). -/
def wait_if_needed (rl : RateLimiter) (t' : ℚ) : RateLimiter :=
  { rl with last_request_time := t' }

/-- date-driven part of the closing-check eligibility: date known, parsed,
and at most fourteen whole days away (the flag conjunct split off for
reasoning). -/
def closingDateOk (now : Int) (t : Tournament) : Bool :=
  if t.date != "N/A" then
    match parseMDY t.date with
    | some dateTs => decide (timedeltaDays dateTs now ≤ 14)
    | none => false
  else false

/-- ratio-driven part of the filling-check eligibility (the flag conjunct
split off for reasoning). -/
def fillOk (t : Tournament) : Bool :=
  let tournamentCapacity := if t.capacity = 0 then DEFAULT_CAPACITY else t.capacity
  let fillPct : ℚ :=
    if 0 < tournamentCapacity then fillPercentage t.registrants tournamentCapacity else 0
  decide (fillPct ≥ 50)

/-- the filling decision of processDetails as a function of the fetched
details alone: because line 109 already replaced the item's registrants and
capacity with the fetched ones, line 121's fallback chain and line 124's max
only ever see the fetched values. -/
def fillFires (d : DetailResult) : Bool :=
  let capacity := if d.capacity = 0 then DEFAULT_CAPACITY else d.capacity
  decide (0 < capacity) && decide (fillPercentage d.registrants capacity ≥ FILLING_THRESHOLD)

/-- the per-item first-pass transformation of a cycle: carry the flags
forward from the prior snapshot, then enrich. -/
def firstPass (fetch : String → Except String DetailResult) (now : Int)
    (prior : List Tournament) (c : Tournament) : Tournament :=
  (enrichOne fetch now (initFlags prior c)).1

theorem sameIdentity_iff (t s : Tournament) : sameIdentity t s = true ↔ idKey t = idKey s := by
  simp [sameIdentity, idKey, Bool.and_eq_true, Prod.ext_iff, and_assoc]

theorem setFlags_closing (t : Tournament) (a b : Bool) :
    (setFlags t a b).registration_closing_sent = a := rfl

theorem setFlags_filling (t : Tournament) (a b : Bool) :
    (setFlags t a b).registration_filling_sent = b := rfl

theorem setFlags_url (t : Tournament) (a b : Bool) : (setFlags t a b).url = t.url := rfl

theorem setFlags_open (t : Tournament) (a b : Bool) :
    (setFlags t a b).registration_open = t.registration_open := rfl

theorem setFlags_idKey (t : Tournament) (a b : Bool) : idKey (setFlags t a b) = idKey t := rfl

theorem setFlags_setFlags (t : Tournament) (a b a' b' : Bool) :
    setFlags (setFlags t a b) a' b' = setFlags t a' b' := rfl

theorem setFlags_self (t : Tournament) :
    setFlags t t.registration_closing_sent t.registration_filling_sent = t := rfl

theorem shouldCheckClosing_eq (now : Int) (t : Tournament) :
    shouldCheckClosing now t = (closingDateOk now t && !t.registration_closing_sent) := by
  unfold shouldCheckClosing closingDateOk
  cases h : t.date != "N/A" <;> simp [h]
  cases hp : parseMDY t.date <;> simp [hp]

theorem shouldCheckFilling_eq (t : Tournament) :
    shouldCheckFilling t = (fillOk t && !t.registration_filling_sent) := rfl

theorem closingDateOk_setFlags (now : Int) (t : Tournament) (a b : Bool) :
    closingDateOk now (setFlags t a b) = closingDateOk now t := rfl

theorem fillOk_setFlags (t : Tournament) (a b : Bool) : fillOk (setFlags t a b) = fillOk t := rfl

theorem shouldCheckClosing_setFlags (now : Int) (t : Tournament) (a b : Bool) :
    shouldCheckClosing now (setFlags t a b) = (closingDateOk now t && !a) := by
  rw [shouldCheckClosing_eq, closingDateOk_setFlags, setFlags_closing]

theorem shouldCheckFilling_setFlags (t : Tournament) (a b : Bool) :
    shouldCheckFilling (setFlags t a b) = (fillOk t && !b) := rfl

theorem isEligible_setFlags (now : Int) (t : Tournament) (a b : Bool) :
    isEligible now (setFlags t a b) =
      (t.url != "N/A" && t.registration_open &&
        ((closingDateOk now t && !a) || (fillOk t && !b))) := by
  unfold isEligible
  rw [shouldCheckClosing_setFlags, shouldCheckFilling_setFlags, setFlags_url, setFlags_open]

theorem processDetails_snd₁ (now : Int) (t : Tournament) (d : DetailResult) (cc cf : Bool) :
    (processDetails now t d cc cf).2.1 = (cc && closeFires now d) := rfl

theorem processDetails_snd₂ (now : Int) (t : Tournament) (d : DetailResult) (cc cf : Bool) :
    (processDetails now t d cc cf).2.2 = (cf && fillFires d) := by
  simp only [processDetails, fillFires]
  simp [apply_ite Tournament.registrants, Bool.and_assoc]


theorem processDetails_idKey (now : Int) (t : Tournament) (d : DetailResult) (cc cf : Bool) :
    idKey (processDetails now t d cc cf).1 = idKey t := by
  simp only [processDetails, idKey]
  repeat' split
  all_goals rfl

theorem processDetails_open (now : Int) (t : Tournament) (d : DetailResult) (cc cf : Bool) :
    (processDetails now t d cc cf).1.registration_open = t.registration_open := by
  simp only [processDetails]
  repeat' split
  all_goals rfl

theorem processDetails_closing_text (now : Int) (t : Tournament) (d : DetailResult)
    (cc cf : Bool) : (processDetails now t d cc cf).1.closing_text = d.closing_text := by
  simp only [processDetails]
  repeat' split
  all_goals rfl

theorem processDetails_closing_date (now : Int) (t : Tournament) (d : DetailResult)
    (cc cf : Bool) : (processDetails now t d cc cf).1.closing_date = d.closing_date := by
  simp only [processDetails]
  repeat' split
  all_goals rfl

theorem processDetails_cs (now : Int) (t : Tournament) (d : DetailResult) (cc cf : Bool) :
    (processDetails now t d cc cf).1.registration_closing_sent =
      ((cc && closeFires now d) || t.registration_closing_sent) := by
  simp only [processDetails]
  repeat' split
  all_goals simp_all

theorem processDetails_fs (now : Int) (t : Tournament) (d : DetailResult) (cc cf : Bool) :
    (processDetails now t d cc cf).1.registration_filling_sent =
      ((cf && fillFires d) || t.registration_filling_sent) := by
  simp only [processDetails, fillFires, apply_ite Tournament.registrants]
  simp only [ite_self]
  repeat' split
  all_goals simp_all [Bool.and_assoc]

theorem processEligible_error (fetch : String → Except String DetailResult) (now : Int)
    (t : Tournament) (cc cf : Bool) (e : String) (h : fetch t.url = Except.error e) :
    processEligible fetch now t cc cf = (t, false, false) := by
  simp [processEligible, h]

theorem processEligible_ok (fetch : String → Except String DetailResult) (now : Int)
    (t : Tournament) (cc cf : Bool) (d : DetailResult) (h : fetch t.url = Except.ok d) :
    processEligible fetch now t cc cf = processDetails now t d cc cf := by
  simp [processEligible, h]

theorem enrichOne_not_elig (fetch : String → Except String DetailResult) (now : Int)
    (t : Tournament) (h : isEligible now t = false) :
    enrichOne fetch now t = (t, false, false) := by
  simp [enrichOne, h]

theorem enrichOne_elig (fetch : String → Except String DetailResult) (now : Int)
    (t : Tournament) (h : isEligible now t = true) :
    enrichOne fetch now t =
      processEligible fetch now t (shouldCheckClosing now t) (shouldCheckFilling t) := by
  simp [enrichOne, h]

theorem enrichOne_idKey (fetch : String → Except String DetailResult) (now : Int)
    (t : Tournament) : idKey (enrichOne fetch now t).1 = idKey t := by
  cases h : isEligible now t
  · rw [enrichOne_not_elig fetch now t h]
  · rw [enrichOne_elig fetch now t h]
    cases hf : fetch t.url with
    | error e => rw [processEligible_error fetch now t _ _ e hf]
    | ok d => rw [processEligible_ok fetch now t _ _ d hf, processDetails_idKey]

theorem enrichOne_open (fetch : String → Except String DetailResult) (now : Int)
    (t : Tournament) : (enrichOne fetch now t).1.registration_open = t.registration_open := by
  cases h : isEligible now t
  · rw [enrichOne_not_elig fetch now t h]
  · rw [enrichOne_elig fetch now t h]
    cases hf : fetch t.url with
    | error e => rw [processEligible_error fetch now t _ _ e hf]
    | ok d => rw [processEligible_ok fetch now t _ _ d hf, processDetails_open]

theorem enrichOne_cs (fetch : String → Except String DetailResult) (now : Int)
    (t : Tournament) :
    (enrichOne fetch now t).1.registration_closing_sent =
      ((enrichOne fetch now t).2.1 || t.registration_closing_sent) := by
  cases h : isEligible now t
  · rw [enrichOne_not_elig fetch now t h]
    simp
  · rw [enrichOne_elig fetch now t h]
    cases hf : fetch t.url with
    | error e => rw [processEligible_error fetch now t _ _ e hf]; simp
    | ok d =>
      rw [processEligible_ok fetch now t _ _ d hf, processDetails_cs, processDetails_snd₁]

theorem enrichOne_fs (fetch : String → Except String DetailResult) (now : Int)
    (t : Tournament) :
    (enrichOne fetch now t).1.registration_filling_sent =
      ((enrichOne fetch now t).2.2 || t.registration_filling_sent) := by
  cases h : isEligible now t
  · rw [enrichOne_not_elig fetch now t h]
    simp
  · rw [enrichOne_elig fetch now t h]
    cases hf : fetch t.url with
    | error e => rw [processEligible_error fetch now t _ _ e hf]; simp
    | ok d =>
      rw [processEligible_ok fetch now t _ _ d hf, processDetails_fs, processDetails_snd₂]

theorem secondPassNoFire (fetch : String → Except String DetailResult) (now : Int)
    (u : Tournament) :
    (enrichOne fetch now (setFlags u (enrichOne fetch now u).1.registration_closing_sent
        (enrichOne fetch now u).1.registration_filling_sent)).2.1 = false ∧
    (enrichOne fetch now (setFlags u (enrichOne fetch now u).1.registration_closing_sent
        (enrichOne fetch now u).1.registration_filling_sent)).2.2 = false := by
  cases hel : isEligible now u with
  | false =>
    rw [enrichOne_not_elig fetch now u hel]
    dsimp only
    rw [setFlags_self, enrichOne_not_elig fetch now u hel]
    exact ⟨rfl, rfl⟩
  | true =>
    cases hf : fetch u.url with
    | error e =>
      rw [enrichOne_elig fetch now u hel, processEligible_error fetch now u _ _ e hf]
      dsimp only
      rw [setFlags_self, enrichOne_elig fetch now u hel,
        processEligible_error fetch now u _ _ e hf]
      exact ⟨rfl, rfl⟩
    | ok d =>
      rw [enrichOne_elig fetch now u hel, processEligible_ok fetch now u _ _ d hf,
        processDetails_cs, processDetails_fs]
      cases hel' : isEligible now (setFlags u
          ((shouldCheckClosing now u && closeFires now d) || u.registration_closing_sent)
          ((shouldCheckFilling u && fillFires d) || u.registration_filling_sent)) with
      | false =>
        rw [enrichOne_not_elig fetch now _ hel']
        exact ⟨rfl, rfl⟩
      | true =>
        have hf' : fetch (setFlags u
            ((shouldCheckClosing now u && closeFires now d) || u.registration_closing_sent)
            ((shouldCheckFilling u && fillFires d) || u.registration_filling_sent)).url =
            Except.ok d := hf
        rw [enrichOne_elig fetch now _ hel', processEligible_ok fetch now _ _ _ d hf',
          processDetails_snd₁, processDetails_snd₂]
        constructor
        · rw [shouldCheckClosing_setFlags, shouldCheckClosing_eq]
          generalize closingDateOk now u = a
          generalize u.registration_closing_sent = b
          generalize closeFires now d = c
          cases a <;> cases b <;> cases c <;> rfl
        · rw [shouldCheckFilling_setFlags, shouldCheckFilling_eq]
          generalize fillOk u = a
          generalize u.registration_filling_sent = b
          generalize fillFires d = c
          cases a <;> cases b <;> cases c <;> rfl

theorem initFlags_some (saved : List Tournament) (t m : Tournament)
    (h : findMatching saved t = some m) :
    initFlags saved t = setFlags t m.registration_closing_sent m.registration_filling_sent := by
  simp [initFlags, h]

theorem initFlags_none (saved : List Tournament) (t : Tournament)
    (h : findMatching saved t = none) : initFlags saved t = setFlags t false false := by
  simp [initFlags, h]

theorem initFlags_idKey (saved : List Tournament) (t : Tournament) :
    idKey (initFlags saved t) = idKey t := by
  unfold initFlags
  cases findMatching saved t <;> rfl

theorem initFlags_open (saved : List Tournament) (t : Tournament) :
    (initFlags saved t).registration_open = t.registration_open := by
  unfold initFlags
  cases findMatching saved t <;> rfl

theorem setFlags_initFlags (saved : List Tournament) (t : Tournament) (a b : Bool) :
    setFlags (initFlags saved t) a b = setFlags t a b := by
  unfold initFlags
  cases findMatching saved t <;> rfl

theorem firstPass_idKey (fetch : String → Except String DetailResult) (now : Int)
    (prior : List Tournament) (c : Tournament) :
    idKey (firstPass fetch now prior c) = idKey c := by
  unfold firstPass
  rw [enrichOne_idKey, initFlags_idKey]

theorem firstPass_open (fetch : String → Except String DetailResult) (now : Int)
    (prior : List Tournament) (c : Tournament) :
    (firstPass fetch now prior c).registration_open = c.registration_open := by
  unfold firstPass
  rw [enrichOne_open, initFlags_open]

theorem cycleSavedList_eq (fetch : String → Except String DetailResult) (now : Int)
    (saved candidates : List Tournament) :
    cycleSavedList fetch now saved candidates = candidates.map (firstPass fetch now saved) := by
  simp only [cycleSavedList, enrichTournaments, List.map_map]
  rfl

theorem saveTournamentsAsync_eq (fetch : String → Except String DetailResult) (now : Int)
    (saved candidates : List Tournament) :
    saveTournamentsAsync fetch now saved candidates =
      ((candidates.map (firstPass fetch now saved)).filter (isNew saved),
       (candidates.map (firstPass fetch now saved)).filter (regOpenedCheck saved),
       ((candidates.map (fun c => enrichOne fetch now (initFlags saved c))).filter
          (fun r => r.2.1)).map (fun r => r.1),
       ((candidates.map (fun c => enrichOne fetch now (initFlags saved c))).filter
          (fun r => r.2.2)).map (fun r => r.1)) := by
  simp only [saveTournamentsAsync, enrichTournaments, List.map_map]
  rfl

theorem findMatching_map_of_nodup (g : Tournament → Tournament)
    (hg : ∀ x, idKey (g x) = idKey x) :
    ∀ (xs : List Tournament), (xs.map idKey).Nodup →
      ∀ x ∈ xs, ∀ t, idKey t = idKey x → findMatching (xs.map g) t = some (g x) := by
  intro xs
  induction xs with
  | nil =>
    intro _ x hx
    cases hx
  | cons y ys ih =>
    intro hnd x hx t ht
    rw [List.map_cons] at hnd ⊢
    have hnd' := List.nodup_cons.mp hnd
    unfold findMatching
    rcases List.mem_cons.mp hx with rfl | hx'
    · rw [List.find?_cons_of_pos]
      exact (sameIdentity_iff t (g x)).mpr (ht.trans (hg x).symm)
    · rw [List.find?_cons_of_neg]
      · exact ih hnd'.2 x hx' t ht
      · intro hcon
        have h2 : idKey t = idKey y := ((sameIdentity_iff _ _).mp hcon).trans (hg y)
        have hxy : idKey y ∈ ys.map idKey := by
          rw [← h2, ht]
          exact List.mem_map_of_mem idKey hx'
        exact hnd'.1 hxy

theorem secondCycleEmptyAux (fetch : String → Except String DetailResult) (now : Int)
    (prior candidates : List Tournament) (hnd : (candidates.map idKey).Nodup) :
    saveTournamentsAsync fetch now (cycleSavedList fetch now prior candidates) candidates =
      ([], [], [], []) := by
  rw [cycleSavedList_eq, saveTournamentsAsync_eq]
  have hg : ∀ x, idKey (firstPass fetch now prior x) = idKey x := firstPass_idKey fetch now prior
  have hfind : ∀ (t : Tournament), ∀ c ∈ candidates, idKey t = idKey c →
      findMatching (candidates.map (firstPass fetch now prior)) t =
        some (firstPass fetch now prior c) :=
    fun t c hc ht => findMatching_map_of_nodup _ hg candidates hnd c hc t ht
  have h1 : (candidates.map
        (firstPass fetch now (candidates.map (firstPass fetch now prior)))).filter
      (isNew (candidates.map (firstPass fetch now prior))) = [] := by
    rw [List.filter_eq_nil_iff]
    intro t htmem
    rcases List.mem_map.mp htmem with ⟨c, hc, rfl⟩
    suffices h : ((candidates.map (firstPass fetch now prior)).any
        (fun s => sameIdentity
          (firstPass fetch now (candidates.map (firstPass fetch now prior)) c) s)) = true by
      simp [isNew, h]
    rw [List.any_eq_true]
    refine ⟨firstPass fetch now prior c, List.mem_map_of_mem _ hc, ?_⟩
    exact (sameIdentity_iff _ _).mpr ((firstPass_idKey _ _ _ c).trans (hg c).symm)
  have h2 : (candidates.map
        (firstPass fetch now (candidates.map (firstPass fetch now prior)))).filter
      (regOpenedCheck (candidates.map (firstPass fetch now prior))) = [] := by
    rw [List.filter_eq_nil_iff]
    intro t htmem
    rcases List.mem_map.mp htmem with ⟨c, hc, rfl⟩
    have hfound := hfind (firstPass fetch now (candidates.map (firstPass fetch now prior)) c)
      c hc (firstPass_idKey _ _ _ c)
    simp only [regOpenedCheck, hfound]
    rw [firstPass_open, firstPass_open]
    cases c.registration_open <;> simp
  have h34 : ∀ r ∈ candidates.map
      (fun c => enrichOne fetch now
        (initFlags (candidates.map (firstPass fetch now prior)) c)),
      r.2.1 = false ∧ r.2.2 = false := by
    intro r hr
    rcases List.mem_map.mp hr with ⟨c, hc, rfl⟩
    have hfound := hfind c c hc rfl
    have hini : initFlags (candidates.map (firstPass fetch now prior)) c =
        setFlags (initFlags prior c)
          (firstPass fetch now prior c).registration_closing_sent
          (firstPass fetch now prior c).registration_filling_sent := by
      rw [initFlags_some _ _ _ hfound]
      exact (setFlags_initFlags prior c _ _).symm
    rw [hini]
    exact secondPassNoFire fetch now (initFlags prior c)
  have h3 : ((candidates.map
        (fun c => enrichOne fetch now
          (initFlags (candidates.map (firstPass fetch now prior)) c))).filter
      (fun r => r.2.1)).map (fun r => r.1) = [] := by
    have hfil : (candidates.map
        (fun c => enrichOne fetch now
          (initFlags (candidates.map (firstPass fetch now prior)) c))).filter
        (fun r => r.2.1) = [] := by
      rw [List.filter_eq_nil_iff]
      intro r hr
      simp [(h34 r hr).1]
    rw [hfil]
    rfl
  have h4 : ((candidates.map
        (fun c => enrichOne fetch now
          (initFlags (candidates.map (firstPass fetch now prior)) c))).filter
      (fun r => r.2.2)).map (fun r => r.1) = [] := by
    have hfil : (candidates.map
        (fun c => enrichOne fetch now
          (initFlags (candidates.map (firstPass fetch now prior)) c))).filter
        (fun r => r.2.2) = [] := by
      rw [List.filter_eq_nil_iff]
      intro r hr
      simp [(h34 r hr).2]
    rw [hfil]
    rfl
  rw [h1, h2, h3, h4]

/-- C1 (code-bug evidence): the inline comments at detail_worker.py:120-124
promise the fallback chain fetched capacity, then listing capacity, then
DEFAULT_CAPACITY, and the larger of the two registrant counts; but because
line 109 already overwrote the item's registrants and capacity with the
fetched values, the listing values are never consulted.  On the claim's
scenario item (40 of 50 on the listing) with a fetched result of
registrants 45 and capacity 0, the spec's resolution gives 45 of 50 (90
percent, so filling_up with the flag set), while the code resolves
capacity to DEFAULT_CAPACITY = 72, computes 62.5 percent, adds nothing,
leaves the flag false, and leaves the item with capacity 0. -/
theorem filling_merge_ignores_listing_values :
    enrichOne (fun _ => Except.ok
        { closing_text := "N/A", closing_date := none, registrants := 45, capacity := 0 }) 0
      { name := "Club Classic", url := "u", registration_open := true, location := "L",
        date := "N/A", registrants := 40, capacity := 50, tier := "", closing_text := "N/A",
        closing_date := none, registration_closing_sent := false,
        registration_filling_sent := false } =
      ({ name := "Club Classic", url := "u", registration_open := true, location := "L",
         date := "N/A", registrants := 45, capacity := 0, tier := "", closing_text := "N/A",
         closing_date := none, registration_closing_sent := false,
         registration_filling_sent := false }, false, false) := by
  simp only [enrichOne, isEligible, processEligible, processDetails, shouldCheckClosing,
    shouldCheckFilling, closeFires, fillPercentage, DEFAULT_CAPACITY, FILLING_THRESHOLD]
  norm_num
  decide

/-- C2: needs_closing_check is true exactly when the item's date is not the
sentinel, parses under the m/d/Y format, lies at most fourteen whole days
ahead of now, and the closing flag is unset; a parse failure yields false;
at the boundary, a date exactly fourteen days out is eligible and one
exactly fifteen days out is not. -/
theorem closing_check_eligibility :
    (∀ (now : Int) (t : Tournament),
      shouldCheckClosing now t = true ↔
        (t.date ≠ "N/A" ∧ ∃ dTs, parseMDY t.date = some dTs ∧
          timedeltaDays dTs now ≤ 14 ∧ t.registration_closing_sent = false)) ∧
    (∀ (now : Int) (t : Tournament), parseMDY t.date = none →
      shouldCheckClosing now t = false) ∧
    (∀ (now : Int) (t : Tournament) (dTs : Int), parseMDY t.date = some dTs →
      dTs = now + 14 * 86400 → t.registration_closing_sent = false →
      shouldCheckClosing now t = true) ∧
    (∀ (now : Int) (t : Tournament) (dTs : Int), parseMDY t.date = some dTs →
      dTs = now + 15 * 86400 → shouldCheckClosing now t = false) := by
  have hch : ∀ (now : Int) (t : Tournament),
      shouldCheckClosing now t = true ↔
        (t.date ≠ "N/A" ∧ ∃ dTs, parseMDY t.date = some dTs ∧
          timedeltaDays dTs now ≤ 14 ∧ t.registration_closing_sent = false) := by
    intro now t
    unfold shouldCheckClosing
    cases hdd : (t.date != "N/A") with
    | false =>
      have hd : t.date = "N/A" := by simpa using hdd
      simp [hd]
    | true =>
      have hne : t.date ≠ "N/A" := by simpa using hdd
      cases hp : parseMDY t.date with
      | none => simp [hp, hne]
      | some dTs => simp [hp, hne]
  refine ⟨hch, ?_, ?_, ?_⟩
  · intro now t hp
    cases h : shouldCheckClosing now t with
    | false => rfl
    | true =>
      obtain ⟨-, dTs, hsome, -, -⟩ := (hch now t).mp h
      rw [hp] at hsome
      cases hsome
  · intro now t dTs hp heq hflag
    apply (hch now t).mpr
    refine ⟨?_, dTs, hp, ?_, hflag⟩
    · intro hd
      rw [hd] at hp
      have hnone : parseMDY "N/A" = none := by decide
      rw [hnone] at hp
      cases hp
    · rw [heq]
      have harith : now + 14 * 86400 - now = 14 * 86400 := by ring
      rw [timedeltaDays, harith]
      decide
  · intro now t dTs hp heq
    cases h : shouldCheckClosing now t with
    | false => rfl
    | true =>
      obtain ⟨-, d', hsome, hle, -⟩ := (hch now t).mp h
      rw [hp, Option.some.injEq] at hsome
      rw [← hsome, heq] at hle
      have harith : now + 15 * 86400 - now = 15 * 86400 := by ring
      rw [timedeltaDays, harith] at hle
      have : Int.fdiv (15 * 86400) 86400 = 15 := by decide
      omega

/-- witness for C2: the boundary conjunct applied to the date 03/01/2025
(midnight timestamp 1740787200) with now exactly fourteen days earlier. -/
theorem closing_check_eligibility_witness :
    shouldCheckClosing (1740787200 - 14 * 86400)
      { name := "w2", url := "u", registration_open := true, location := "L",
        date := "03/01/2025", registrants := 0, capacity := 0, tier := "",
        closing_text := "N/A", closing_date := none,
        registration_closing_sent := false, registration_filling_sent := false } = true :=
  closing_check_eligibility.2.2.1 (1740787200 - 14 * 86400) _ 1740787200
    (by decide) (by decide) rfl

/-- C3 counterexample: two candidates share the composite identity but
disagree on registration_open.  The first cycle saves both; in the second
cycle, with candidates and snapshot unchanged and a deterministic fetcher,
the matching lookup finds the first saved duplicate for both, so the open
one is reported in registration_opened again — the four lists are not all
empty. -/
theorem second_cycle_duplicate_identity_counterexample :
    saveTournamentsAsync (fun _ => Except.ok neutralDetailResult) 0
      (cycleSavedList (fun _ => Except.ok neutralDetailResult) 0 []
        [⟨"X", "N/A", false, "L", "N/A", 0, 0, "", "N/A", none, false, false⟩,
         ⟨"X", "N/A", true, "L", "N/A", 0, 0, "", "N/A", none, false, false⟩])
      [⟨"X", "N/A", false, "L", "N/A", 0, 0, "", "N/A", none, false, false⟩,
       ⟨"X", "N/A", true, "L", "N/A", 0, 0, "", "N/A", none, false, false⟩] ≠
      ([], [], [], []) := by
  decide

/-- C3 (amended): provided the candidate identities are pairwise distinct
(the data-model invariant on snapshots), running the cycle a second time
with an unchanged candidate list, the same deterministic fetcher and clock,
and a prior snapshot equal to the list saved by the first run yields all
four notification lists empty. -/
theorem second_cycle_unchanged_all_empty (fetch : String → Except String DetailResult)
    (now : Int) (prior candidates : List Tournament)
    (hnd : (candidates.map idKey).Nodup) :
    saveTournamentsAsync fetch now (cycleSavedList fetch now prior candidates) candidates =
      ([], [], [], []) :=
  secondCycleEmptyAux fetch now prior candidates hnd

/-- witness for the amended C3 on a one-candidate list. -/
theorem second_cycle_unchanged_all_empty_witness :
    saveTournamentsAsync (fun _ => Except.ok neutralDetailResult) 0
      (cycleSavedList (fun _ => Except.ok neutralDetailResult) 0 []
        [⟨"Y", "N/A", true, "L", "N/A", 0, 0, "", "N/A", none, false, false⟩])
      [⟨"Y", "N/A", true, "L", "N/A", 0, 0, "", "N/A", none, false, false⟩] =
      ([], [], [], []) :=
  second_cycle_unchanged_all_empty _ 0 [] _ (by decide)

/-- C4: the two notification flags are monotone.  Enrichment never clears a
set flag; the carry-forward step copies the matching prior item's flags and
defaults them to false when unmatched; the saved list is exactly the
carried-then-enriched candidates; and an item whose matching prior snapshot
entry has a flag set keeps that flag set in the list saved by the cycle. -/
theorem notification_flags_monotone :
    (∀ (fetch : String → Except String DetailResult) (now : Int) (t : Tournament),
      t.registration_closing_sent = true →
      (enrichOne fetch now t).1.registration_closing_sent = true) ∧
    (∀ (fetch : String → Except String DetailResult) (now : Int) (t : Tournament),
      t.registration_filling_sent = true →
      (enrichOne fetch now t).1.registration_filling_sent = true) ∧
    (∀ (saved : List Tournament) (t m : Tournament), findMatching saved t = some m →
      (initFlags saved t).registration_closing_sent = m.registration_closing_sent ∧
      (initFlags saved t).registration_filling_sent = m.registration_filling_sent) ∧
    (∀ (saved : List Tournament) (t : Tournament), findMatching saved t = none →
      (initFlags saved t).registration_closing_sent = false ∧
      (initFlags saved t).registration_filling_sent = false) ∧
    (∀ (fetch : String → Except String DetailResult) (now : Int)
      (saved candidates : List Tournament),
      cycleSavedList fetch now saved candidates =
        candidates.map (firstPass fetch now saved)) ∧
    (∀ (fetch : String → Except String DetailResult) (now : Int)
      (saved : List Tournament) (c m : Tournament), findMatching saved c = some m →
      m.registration_closing_sent = true →
      (firstPass fetch now saved c).registration_closing_sent = true) ∧
    (∀ (fetch : String → Except String DetailResult) (now : Int)
      (saved : List Tournament) (c m : Tournament), findMatching saved c = some m →
      m.registration_filling_sent = true →
      (firstPass fetch now saved c).registration_filling_sent = true) := by
  refine ⟨?_, ?_, ?_, ?_, ?_, ?_, ?_⟩
  · intro fetch now t h
    rw [enrichOne_cs, h]
    simp
  · intro fetch now t h
    rw [enrichOne_fs, h]
    simp
  · intro saved t m h
    rw [initFlags_some saved t m h]
    exact ⟨rfl, rfl⟩
  · intro saved t h
    rw [initFlags_none saved t h]
    exact ⟨rfl, rfl⟩
  · intro fetch now saved candidates
    exact cycleSavedList_eq fetch now saved candidates
  · intro fetch now saved c m hm hflag
    unfold firstPass
    rw [enrichOne_cs, initFlags_some saved c m hm, setFlags_closing, hflag]
    simp
  · intro fetch now saved c m hm hflag
    unfold firstPass
    rw [enrichOne_fs, initFlags_some saved c m hm, setFlags_filling, hflag]
    simp

/-- witness for C4: a prior item with the closing flag set keeps it set
through the next cycle's carry-forward and enrichment. -/
theorem notification_flags_monotone_witness :
    (firstPass (fun _ => Except.ok neutralDetailResult) 0
      [⟨"M", "N/A", true, "L", "N/A", 0, 0, "", "N/A", none, true, false⟩]
      ⟨"M", "N/A", true, "L", "N/A", 0, 0, "", "N/A", none, false, false⟩
      ).registration_closing_sent = true :=
  notification_flags_monotone.2.2.2.2.2.1 (fun _ => Except.ok neutralDetailResult) 0
    [⟨"M", "N/A", true, "L", "N/A", 0, 0, "", "N/A", none, true, false⟩]
    ⟨"M", "N/A", true, "L", "N/A", 0, 0, "", "N/A", none, false, false⟩
    ⟨"M", "N/A", true, "L", "N/A", 0, 0, "", "N/A", none, true, false⟩
    (by decide) rfl

/-- C5 counterexample: at a concrete nonempty candidate list the snapshot
save fails (its Boolean result is false), yet the value the cycle entry
point hands its caller is exactly the value of a successful run — no
failure is surfaced to the caller. -/
theorem save_failure_not_surfaced_counterexample :
    (saveTournamentsToS3 false
        (cycleSavedList (fun _ => Except.ok neutralDetailResult) 0 []
          [⟨"X", "N/A", true, "L", "N/A", 0, 0, "", "N/A", none, false, false⟩]) none).1 =
      false ∧
    (runCycle (fun _ => Except.ok neutralDetailResult) 0 false none []
        [⟨"X", "N/A", true, "L", "N/A", 0, 0, "", "N/A", none, false, false⟩]).1 =
      (runCycle (fun _ => Except.ok neutralDetailResult) 0 true none []
        [⟨"X", "N/A", true, "L", "N/A", 0, 0, "", "N/A", none, false, false⟩]).1 := by
  decide

/-- C5 (amended): save_tournaments_async discards the Boolean result of
save_tournaments_to_s3 (script.py line 786) and returns the four computed
notification lists (line 788) unchanged, identically whether the save
succeeds or fails; the failure is logged but not surfaced to the caller. -/
theorem save_failure_not_surfaced :
    ∀ (fetch : String → Except String DetailResult) (now : Int)
      (stored : Option (List Tournament)) (saved candidates : List Tournament),
      (runCycle fetch now false stored saved candidates).1 =
        saveTournamentsAsync fetch now saved candidates ∧
      (runCycle fetch now false stored saved candidates).1 =
        (runCycle fetch now true stored saved candidates).1 :=
  fun _ _ _ _ _ => ⟨rfl, rfl⟩

/-- C6 counterexample: a fetch exception is not handled like a neutral
zero-valued DetailResult.  On an item listed at 40 of 50, the exception
path leaves the item untouched (registrants 40, capacity 50), while a
neutral result would overwrite its registrants, capacity and closing
fields with zeros through the unconditional dict update. -/
theorem fetch_error_not_neutral_counterexample :
    (enrichOne (fun _ => Except.error "boom") 0
        ⟨"Lakeside Am", "u", true, "L", "N/A", 40, 50, "", "N/A", none, false, false⟩).1 ≠
      (enrichOne (fun _ => Except.ok neutralDetailResult) 0
        ⟨"Lakeside Am", "u", true, "L", "N/A", 40, 50, "", "N/A", none, false, false⟩).1 := by
  have h1 : enrichOne (fun _ => Except.error "boom") 0
      ⟨"Lakeside Am", "u", true, "L", "N/A", 40, 50, "", "N/A", none, false, false⟩ =
      (⟨"Lakeside Am", "u", true, "L", "N/A", 40, 50, "", "N/A", none, false, false⟩,
        false, false) := by
    unfold enrichOne
    split <;> rfl
  have h2 : enrichOne (fun _ => Except.ok neutralDetailResult) 0
      ⟨"Lakeside Am", "u", true, "L", "N/A", 40, 50, "", "N/A", none, false, false⟩ =
      (⟨"Lakeside Am", "u", true, "L", "N/A", 0, 0, "", "N/A", none, false, false⟩,
        false, false) := by
    simp only [enrichOne, isEligible, processEligible, processDetails, neutralDetailResult,
      shouldCheckClosing, shouldCheckFilling, closeFires, fillPercentage, DEFAULT_CAPACITY,
      FILLING_THRESHOLD]
    norm_num
    decide
  rw [h1, h2]
  decide

/-- C6 (amended): a per-item fetch exception is caught (and logged with the
item's name at detail_worker.py:138); the item is skipped whole — left
unchanged and added to neither list — rather than merged with a neutral
result; and an item's processing depends on the fetcher only through the
value returned for that item's own URL, so no other item is affected and
the cycle never aborts. -/
theorem fetch_error_item_skipped :
    (∀ (fetch : String → Except String DetailResult) (now : Int) (t : Tournament)
      (cc cf : Bool) (e : String), fetch t.url = Except.error e →
      processEligible fetch now t cc cf = (t, false, false)) ∧
    (∀ (f₁ f₂ : String → Except String DetailResult) (now : Int) (t : Tournament),
      f₁ t.url = f₂ t.url → enrichOne f₁ now t = enrichOne f₂ now t) := by
  constructor
  · exact fun fetch now t cc cf e h => processEligible_error fetch now t cc cf e h
  · intro f₁ f₂ now t h
    unfold enrichOne processEligible
    rw [h]

/-- witness for the amended C6: the error branch at a concrete item. -/
theorem fetch_error_item_skipped_witness :
    processEligible (fun _ => Except.error "boom") 0
      ⟨"Lakeside Am", "u", true, "L", "N/A", 40, 50, "", "N/A", none, false, false⟩
      false true =
      (⟨"Lakeside Am", "u", true, "L", "N/A", 40, 50, "", "N/A", none, false, false⟩,
        false, false) :=
  fetch_error_item_skipped.1 (fun _ => Except.error "boom") 0
    ⟨"Lakeside Am", "u", true, "L", "N/A", 40, 50, "", "N/A", none, false, false⟩
    false true "boom" rfl

/-- C7: for an item eligible for the closing check whose fetched details
carry a closing date, the item is marked for closing_soon with its flag set
exactly when strictly fewer than seven whole days remain until that date;
with seven or more days the flag is left unchanged and the item is not
marked. -/
theorem closing_soon_iff_under_seven_days (fetch : String → Except String DetailResult)
    (now : Int) (t : Tournament) (d : DetailResult) (cd : Int)
    (hurl : (t.url != "N/A") = true) (hopen : t.registration_open = true)
    (hcc : shouldCheckClosing now t = true)
    (hf : fetch t.url = Except.ok d) (hcd : d.closing_date = some cd) :
    (((enrichOne fetch now t).2.1 = true ∧
        (enrichOne fetch now t).1.registration_closing_sent = true) ↔
      timedeltaDays cd now < 7) ∧
    (7 ≤ timedeltaDays cd now →
      (enrichOne fetch now t).1.registration_closing_sent = t.registration_closing_sent ∧
      (enrichOne fetch now t).2.1 = false) := by
  have hel : isEligible now t = true := by
    simp [isEligible, hurl, hopen, hcc]
  rw [enrichOne_elig fetch now t hel, processEligible_ok fetch now t _ _ d hf,
    processDetails_snd₁, processDetails_cs, hcc]
  have hcf : closeFires now d = decide (timedeltaDays cd now < 7) := by
    simp [closeFires, hcd]
  rw [hcf]
  constructor
  · constructor
    · rintro ⟨h1, -⟩
      simpa using h1
    · intro hlt
      simp [hlt]
  · intro hge
    have hdec : decide (timedeltaDays cd now < 7) = false := by
      simp
      omega
    simp [hdec]

/-- witness for C7: a closing date three days out fires the closing-soon
branch for an eligible item. -/
theorem closing_soon_iff_under_seven_days_witness :
    (enrichOne (fun _ => Except.ok
        { closing_text := "x", closing_date := some (1740787200 + 3 * 86400),
          registrants := 0, capacity := 0 }) 1740787200
      { name := "w7", url := "u", registration_open := true, location := "L",
        date := "03/01/2025", registrants := 0, capacity := 0, tier := "",
        closing_text := "N/A", closing_date := none,
        registration_closing_sent := false, registration_filling_sent := false }).2.1 =
      true :=
  ((closing_soon_iff_under_seven_days
      (fun _ => Except.ok
        { closing_text := "x", closing_date := some (1740787200 + 3 * 86400),
          registrants := 0, capacity := 0 }) 1740787200
      { name := "w7", url := "u", registration_open := true, location := "L",
        date := "03/01/2025", registrants := 0, capacity := 0, tier := "",
        closing_text := "N/A", closing_date := none,
        registration_closing_sent := false, registration_filling_sent := false }
      { closing_text := "x", closing_date := some (1740787200 + 3 * 86400),
        registrants := 0, capacity := 0 } (1740787200 + 3 * 86400)
      rfl rfl (by decide) rfl rfl).1.mpr (by decide)).1

/-- C8 counterexample: an item with a previously known closing date
(timestamp 86400) is enriched with a result whose closing_date is null;
the unconditional dict update at detail_worker.py:109 replaces the known
value with null, so the update does not condition on presence. -/
theorem closing_fields_overwritten_counterexample :
    (enrichOne (fun _ => Except.ok neutralDetailResult) 0
        ⟨"X", "u", true, "L", "N/A", 40, 50, "", "May 1", some 86400, false, false⟩
      ).1.closing_date = none ∧
    (⟨"X", "u", true, "L", "N/A", 40, 50, "", "May 1", some 86400, false, false⟩ :
      Tournament).closing_date = some 86400 := by
  constructor
  · have hel : isEligible 0
        ⟨"X", "u", true, "L", "N/A", 40, 50, "", "May 1", some 86400, false, false⟩ = true := by
      simp only [isEligible, shouldCheckClosing, shouldCheckFilling, fillPercentage,
        DEFAULT_CAPACITY]
      norm_num
      decide
    rw [enrichOne_elig _ _ _ hel, processEligible_ok _ _ _ _ _ neutralDetailResult rfl,
      processDetails_closing_date]
    rfl
  · rfl

/-- C8 (amended): after a successful fetch the item's closing_text and
closing_date are always overwritten with the fetched values — even when no
category fires, and also when the fetched closing_date is null or the
fetched closing_text is the sentinel, replacing previously known values. -/
theorem closing_fields_always_overwritten (fetch : String → Except String DetailResult)
    (now : Int) (t : Tournament) (cc cf : Bool) (d : DetailResult)
    (h : fetch t.url = Except.ok d) :
    (processEligible fetch now t cc cf).1.closing_text = d.closing_text ∧
    (processEligible fetch now t cc cf).1.closing_date = d.closing_date := by
  rw [processEligible_ok fetch now t cc cf d h]
  exact ⟨processDetails_closing_text now t d cc cf, processDetails_closing_date now t d cc cf⟩

/-- witness for the amended C8 at a concrete item and result. -/
theorem closing_fields_always_overwritten_witness :
    (processEligible (fun _ => Except.ok neutralDetailResult) 0
      ⟨"W8", "u", true, "L", "N/A", 1, 2, "", "old", some 3, false, false⟩
      false false).1.closing_date = none :=
  (closing_fields_always_overwritten (fun _ => Except.ok neutralDetailResult) 0
    ⟨"W8", "u", true, "L", "N/A", 1, 2, "", "old", some 3, false, false⟩
    false false neutralDetailResult rfl).2

/-- C9: under a monotone clock where sleep never returns early (the reading
t' recorded after the optional sleep satisfies t' ≥ t + waitTime rl t),
each wait_if_needed call records a time at least 60 / requests_per_minute
after the previously recorded one; with the default of ten requests per
minute the spacing is at least six seconds; and a first call whose entry
reading already exceeds min_interval (last_request_time starts at zero)
waits nothing. -/
theorem rate_limiter_spacing (rl : RateLimiter) (t t' : ℚ)
    (hmin : rl.min_interval = 60 / rl.requests_per_minute)
    (hsleep : t + waitTime rl t ≤ t') :
    60 / rl.requests_per_minute ≤
      (wait_if_needed rl t').last_request_time - rl.last_request_time ∧
    (rl.requests_per_minute = 10 →
      (6 : ℚ) ≤ (wait_if_needed rl t').last_request_time - rl.last_request_time) ∧
    (rl.last_request_time = 0 → rl.min_interval ≤ t → waitTime rl t = 0) := by
  have key : rl.min_interval ≤ t' - rl.last_request_time := by
    have hw : rl.last_request_time + rl.min_interval ≤ t + waitTime rl t := by
      simp only [waitTime]
      split
      · linarith
      · next h =>
        push_neg at h
        linarith
    linarith
  refine ⟨?_, ?_, ?_⟩
  · show 60 / rl.requests_per_minute ≤ t' - rl.last_request_time
    rw [← hmin]
    exact key
  · intro h10
    show (6 : ℚ) ≤ t' - rl.last_request_time
    have h6 : rl.min_interval = 6 := by
      rw [hmin, h10]
      norm_num
    linarith
  · intro h0 hge
    simp only [waitTime, h0, sub_zero]
    rw [if_neg (not_lt.mpr hge)]

/-- witness for C9: the default limiter, entry reading 100, exit reading
exactly the sleep lower bound. -/
theorem rate_limiter_spacing_witness :
    (6 : ℚ) ≤ (wait_if_needed (mkRateLimiter 10)
        (100 + waitTime (mkRateLimiter 10) 100)).last_request_time -
      (mkRateLimiter 10).last_request_time :=
  (rate_limiter_spacing (mkRateLimiter 10) 100 (100 + waitTime (mkRateLimiter 10) 100)
    rfl (le_refl _)).2.1 rfl

/-- C10: called with an empty item list, the snapshot save performs no put
and reports failure, leaving the stored snapshot unchanged; consequently a
cycle run on an empty candidate list leaves the store untouched. -/
theorem empty_save_skips_write :
    (∀ (s3ok : Bool) (stored : Option (List Tournament)),
      saveTournamentsToS3 s3ok [] stored = (false, stored)) ∧
    (∀ (fetch : String → Except String DetailResult) (now : Int) (s3ok : Bool)
      (stored : Option (List Tournament)) (saved : List Tournament),
      (runCycle fetch now s3ok stored saved []).2 = stored) := by
  exact ⟨fun _ _ => rfl, fun _ _ _ _ _ => rfl⟩
